import Mathlib

/-!
Verification of the IntelligenceLayer pod lifecycle orchestrator scripts.

Shallow embedding of the shell scripts in `scripts/` (auto-deploy poller,
backup manager, restore manager, health monitor, volume migrator) as pure
Lean functions over explicit environment and state records, together with
theorems settling the specification's claims about them.
-/

namespace IntelligenceLayer

/-! ## String helpers

`leadsWith p l` decides whether the character list `p` is an initial
segment of `l` (the shell scripts test this with `grep -q "^pat"`).
`containsSub n l` decides whether `n` occurs as a contiguous substring
of `l` (an unanchored `grep`/`sed` match). -/

def leadsWith : List Char → List Char → Bool
  | [], _ => true
  | _ :: _, [] => false
  | c :: cs, d :: ds => c == d && leadsWith cs ds

def containsSub (needle : List Char) : List Char → Bool
  | [] => leadsWith needle []
  | c :: cs => leadsWith needle (c :: cs) || containsSub needle cs

def strLeads (p s : String) : Bool := leadsWith p.data s.data

def strContains (p s : String) : Bool := containsSub p.data s.data

/-! ## Backup redaction (backup.sh lines 54-59)

The backup script pipes `.env` through
`sed -E 's/(ANTHROPIC_API_KEY=).+/\1REDACTED/'` and then
`sed -E 's/(WYBE_API_KEY=).+/\1REDACTED/'`.

For each line, `sed` finds the leftmost position where the pattern
matches (the key text followed by at least one further character) and
replaces the match — which extends to the end of the line, since `.+`
is greedy and `.` does not match a newline — with the key text followed
by `REDACTED`.  A line with no match passes through unchanged.
`redactKey` is that per-line substitution; `redactLine` is the two-stage
pipeline; `redactEnv` is the whole-file map. -/

def redactedToken : List Char := "REDACTED".data

def redactKey (key : List Char) : List Char → List Char
  | [] => []
  | c :: cs =>
    if leadsWith key (c :: cs) && decide (key.length < (c :: cs).length) then
      key ++ redactedToken
    else
      c :: redactKey key cs

def anthroPat : List Char := "ANTHROPIC_API_KEY=".data

def wybePat : List Char := "WYBE_API_KEY=".data

def redactLine (line : String) : String :=
  ⟨redactKey wybePat (redactKey anthroPat line.data)⟩

def redactEnv (lines : List String) : List String := lines.map redactLine

/-! Helper lemmas about `leadsWith` / `redactKey`. -/

theorem leadsWith_append (k t : List Char) : leadsWith k (k ++ t) = true := by
  induction k with
  | nil => rfl
  | cons c cs ih => simp [leadsWith, ih]

theorem leadsWith_disjoint {c d : Char} {cs ds l : List Char}
    (hne : ¬ c = d) (h : leadsWith (c :: cs) l = true) :
    leadsWith (d :: ds) l = false := by
  cases l with
  | nil => simp [leadsWith] at h
  | cons x xs =>
    simp only [leadsWith, Bool.and_eq_true, beq_iff_eq] at h
    simp only [leadsWith, Bool.and_eq_false_iff]
    left
    simp only [beq_eq_false_iff_ne, ne_eq]
    intro hd
    exact hne (h.1.trans hd.symm)

theorem redactKey_of_not_contains (key l : List Char)
    (h : containsSub key l = false) : redactKey key l = l := by
  induction l with
  | nil => rfl
  | cons c cs ih =>
    simp only [containsSub, Bool.or_eq_false_iff] at h
    rw [redactKey, if_neg, ih h.2]
    simp [h.1]

theorem redactKey_of_leads (key l : List Char)
    (h1 : leadsWith key l = true) (h2 : key.length < l.length) :
    redactKey key l = key ++ redactedToken := by
  cases l with
  | nil => simp at h2
  | cons c cs =>
    rw [redactKey, if_pos]
    simp only [h1, Bool.true_and, decide_eq_true_eq]
    simpa using h2

theorem redact_mk_data (s : String) : String.mk s.data = s := rfl

/-- Claim C3 (counterexample): the claim asserts that for a file containing
`SECRET_KEY=abc123` the backed-up copy contains `SECRET_KEY=REDACTED` and no
substring `abc123`.  But `SECRET_KEY` is not on the recognized list
(`ANTHROPIC_API_KEY`, `WYBE_API_KEY` — backup.sh lines 56-57), so the line
passes through unredacted: the backed-up copy still contains `abc123` and
contains no `REDACTED` token at all. -/
theorem c3_counterexample :
    redactLine "SECRET_KEY=abc123" = "SECRET_KEY=abc123" ∧
    strContains "abc123" (redactLine "SECRET_KEY=abc123") = true ∧
    strContains "REDACTED" (redactLine "SECRET_KEY=abc123") = false := by
  refine ⟨by decide, by decide, by decide⟩

/-- Claim C3 (amended): the Backup Manager's redaction replaces the value of
each recognized secret key (`ANTHROPIC_API_KEY`, `WYBE_API_KEY`) with the
fixed literal `REDACTED`, preserving the key name and the line position, and
every line containing no recognized key pattern passes through verbatim.
In particular a file containing `ANTHROPIC_API_KEY=abc123` is backed up as
`ANTHROPIC_API_KEY=REDACTED`, while `SECRET_KEY=abc123` — a key not on the
recognized list — and `FOO=bar` pass through unredacted. -/
theorem c3_redaction (v : String) (hv : v ≠ "")
    (hx : strContains "ANTHROPIC_API_KEY=" ("WYBE_API_KEY=" ++ v) = false) :
    redactLine ("ANTHROPIC_API_KEY=" ++ v) = "ANTHROPIC_API_KEY=REDACTED" ∧
    redactLine ("WYBE_API_KEY=" ++ v) = "WYBE_API_KEY=REDACTED" ∧
    (∀ line : String, strContains "ANTHROPIC_API_KEY=" line = false →
      strContains "WYBE_API_KEY=" line = false → redactLine line = line) ∧
    redactEnv ["ANTHROPIC_API_KEY=abc123", "SECRET_KEY=abc123", "FOO=bar"] =
      ["ANTHROPIC_API_KEY=REDACTED", "SECRET_KEY=abc123", "FOO=bar"] := by
  have hvd : v.data ≠ [] := by
    intro h
    exact hv (String.ext h)
  have hlenA : anthroPat.length < (anthroPat ++ v.data).length := by
    simp only [List.length_append]
    have := List.length_pos.mpr hvd
    omega
  have hlenW : wybePat.length < (wybePat ++ v.data).length := by
    simp only [List.length_append]
    have := List.length_pos.mpr hvd
    omega
  refine ⟨?_, ?_, ?_, by decide⟩
  · unfold redactLine
    have h1 : ("ANTHROPIC_API_KEY=" ++ v).data = anthroPat ++ v.data :=
      String.data_append _ _
    rw [h1, redactKey_of_leads _ _ (leadsWith_append _ _) hlenA,
      redactKey_of_not_contains _ _ (by decide)]
    decide
  · unfold redactLine
    have h1 : ("WYBE_API_KEY=" ++ v).data = wybePat ++ v.data :=
      String.data_append _ _
    have h2 : containsSub anthroPat (wybePat ++ v.data) = false := by
      have := hx
      unfold strContains at this
      rwa [String.data_append] at this
    rw [h1, redactKey_of_not_contains _ _ h2,
      redactKey_of_leads _ _ (leadsWith_append _ _) hlenW]
    decide
  · intro line ha hw
    unfold redactLine
    have ha2 : containsSub anthroPat line.data = false := ha
    have hw2 : containsSub wybePat line.data = false := hw
    rw [redactKey_of_not_contains _ _ ha2, redactKey_of_not_contains _ _ hw2,
      redact_mk_data]

/-- Witness for `c3_redaction` at the concrete value `abc123`. -/
theorem c3_redaction_witness :
    redactLine ("ANTHROPIC_API_KEY=" ++ "abc123") = "ANTHROPIC_API_KEY=REDACTED" :=
  (c3_redaction "abc123" (by decide) (by decide)).1

/-! ## Deploy Poller (auto_deploy.sh)

The script runs under `set -euo pipefail`.  Its steps, in source order:
lock acquisition (`flock -n`, skip with exit 0 on contention); `git fetch`
(exit 1 on failure); revision comparison (silent exit 0 when
`HEAD = origin/main`); the training-safe gate (sqlite count of running
rows, exit 0 with a skip log line when positive); `git diff --name-only`
to compute the changed paths; `git pull --ff-only` (exit 1 on failure,
HEAD unchanged; on success HEAD becomes the remote revision); the
classification chain (`^web/` rebuild with exit 1 on build failure,
`^pyproject\.toml` reinstall with exit 1 on failure, `^api/` and
`^frontend/` marking restarts, `^scripts/supervisor/` config refresh
whose failures are suppressed with `|| true`); finally the restart loop
over the marked services (failures only warn). -/

def webPat : List Char := "web/".data

def apiPat : List Char := "api/".data

def frontendPat : List Char := "frontend/".data

def pyprojectPat : List Char := "pyproject.toml".data

def supervisorPat : List Char := "scripts/supervisor/".data

def pathStarts (pat : List Char) (f : String) : Bool := leadsWith pat f.data

structure DeployEnv where
  lockFree : Bool
  fetchOk : Bool
  remoteRev : String
  dbExists : Bool
  sqliteOk : Bool
  runningCount : Nat
  changed : List String
  pullOk : Bool
  webBuildOk : Bool
  pipOk : Bool
deriving Repr, DecidableEq

structure DeployState where
  localRev : String
deriving Repr, DecidableEq

structure DeployResult where
  exitCode : Nat
  logs : List String
  webRebuilt : Bool
  depsReinstalled : Bool
  configsUpdated : Bool
  restarted : List String
  final : DeployState
deriving Repr, DecidableEq

def skipDeployMsg (n : Nat) : String :=
  "Skipping deploy: " ++ toString n ++ " training run(s) in progress."

def detectMsg (l r : String) : String :=
  "New commits detected: " ++ l ++ " -> " ++ r

/-- The `RUNNING` count of auto_deploy.sh lines 57-58: the sqlite query is
only issued when the database file exists and `sqlite3` is available;
otherwise the gate sees zero running jobs. -/
def runningJobs (e : DeployEnv) : Nat :=
  if e.dbExists && e.sqliteOk then e.runningCount else 0

def runAutoDeploy (e : DeployEnv) (s : DeployState) : DeployResult :=
  if !e.lockFree then
    ⟨0, ["Another deploy is already running — skipping."],
      false, false, false, [], s⟩
  else if !e.fetchOk then
    ⟨1, ["git fetch failed"], false, false, false, [], s⟩
  else if s.localRev = e.remoteRev then
    ⟨0, [], false, false, false, [], s⟩
  else if 0 < runningJobs e then
    ⟨0, [detectMsg s.localRev e.remoteRev, skipDeployMsg (runningJobs e)],
      false, false, false, [], s⟩
  else if !e.pullOk then
    ⟨1, [detectMsg s.localRev e.remoteRev,
        "git pull --ff-only failed — local changes conflict with remote."],
      false, false, false, [], s⟩
  else
    let pulled : DeployState := ⟨e.remoteRev⟩
    let webChanged := e.changed.any (pathStarts webPat)
    let depsChanged := e.changed.any (pathStarts pyprojectPat)
    let apiChanged := e.changed.any (pathStarts apiPat)
    let feChanged := e.changed.any (pathStarts frontendPat)
    let confChanged := e.changed.any (pathStarts supervisorPat)
    if webChanged && !e.webBuildOk then
      ⟨1, [detectMsg s.localRev e.remoteRev,
          "Next.js build failed — keeping old version running."],
        false, false, false, [], pulled⟩
    else if depsChanged && !e.pipOk then
      ⟨1, [detectMsg s.localRev e.remoteRev,
          "Python install failed — keeping old version running."],
        webChanged, false, false, [], pulled⟩
    else
      ⟨0, [detectMsg s.localRev e.remoteRev, "Deploy complete"],
        webChanged, depsChanged, confChanged,
        (if webChanged then ["wybe-web"] else []) ++
        (if apiChanged then ["wybe-api"] else []) ++
        (if feChanged then ["wybe-studio"] else []),
        pulled⟩

/-- A path under `api/` matches none of the other classification patterns. -/
theorem starts_api_only (f : String) (h : pathStarts apiPat f = true) :
    pathStarts webPat f = false ∧ pathStarts pyprojectPat f = false ∧
    pathStarts frontendPat f = false := by
  have ha : apiPat = 'a' :: ['p', 'i', '/'] := by decide
  have hw : webPat = 'w' :: ['e', 'b', '/'] := by decide
  have hp : pyprojectPat = 'p' :: "yproject.toml".data := by decide
  have hf : frontendPat = 'f' :: "rontend/".data := by decide
  unfold pathStarts at h ⊢
  rw [ha] at h
  rw [hw, hp, hf]
  exact ⟨leadsWith_disjoint (by decide) h, leadsWith_disjoint (by decide) h,
    leadsWith_disjoint (by decide) h⟩

/-- A path under `frontend/` matches none of the other classification
patterns. -/
theorem starts_frontend_only (f : String) (h : pathStarts frontendPat f = true) :
    pathStarts webPat f = false ∧ pathStarts pyprojectPat f = false ∧
    pathStarts apiPat f = false := by
  have ha : apiPat = 'a' :: ['p', 'i', '/'] := by decide
  have hw : webPat = 'w' :: ['e', 'b', '/'] := by decide
  have hp : pyprojectPat = 'p' :: "yproject.toml".data := by decide
  have hf : frontendPat = 'f' :: "rontend/".data := by decide
  unfold pathStarts at h ⊢
  rw [hf] at h
  rw [hw, hp, ha]
  exact ⟨leadsWith_disjoint (by decide) h, leadsWith_disjoint (by decide) h,
    leadsWith_disjoint (by decide) h⟩

/-- Claim C1 (counterexample): with pending remote changes touching `web/`
and a failing asset rebuild, the invocation aborts with exit code 1, but the
local revision pointer has already been advanced by `git pull --ff-only`
(auto_deploy.sh line 71, which runs before the rebuild at lines 85-94): it no
longer equals its value `r1` at the start of the invocation. -/
theorem c1_counterexample :
    (runAutoDeploy ⟨true, true, "r2", false, false, 0, ["web/app.js"],
        true, false, true⟩ ⟨"r1"⟩).exitCode = 1 ∧
    ¬ (runAutoDeploy ⟨true, true, "r2", false, false, 0, ["web/app.js"],
        true, false, true⟩ ⟨"r1"⟩).final.localRev = "r1" := by
  decide

/-- Claim C1 (amended): within a Deploy Poller invocation with pending
changes, if the asset rebuild or the dependency reinstall fails, the
invocation aborts with an error and performs no service restart (the
previously built artifacts keep running), but the local revision pointer has
already been fast-forwarded before the build-type actions run: after the
aborted invocation it equals the remote revision, not its value at the start
of the invocation. -/
theorem c1_build_failure (e : DeployEnv) (s : DeployState)
    (hl : e.lockFree = true) (hf : e.fetchOk = true)
    (hne : ¬ s.localRev = e.remoteRev) (hg : runningJobs e = 0)
    (hp : e.pullOk = true)
    (hfail : (e.changed.any (pathStarts webPat) = true ∧ e.webBuildOk = false) ∨
      (e.changed.any (pathStarts pyprojectPat) = true ∧ e.pipOk = false)) :
    (runAutoDeploy e s).exitCode = 1 ∧
    (runAutoDeploy e s).restarted = [] ∧
    (runAutoDeploy e s).final.localRev = e.remoteRev := by
  rcases hfail with ⟨hw, hb⟩ | ⟨hd, hpi⟩
  · simp [runAutoDeploy, hl, hf, hne, hg, hp, hw, hb]
  · cases hwb : e.changed.any (pathStarts webPat) with
    | false => simp [runAutoDeploy, hl, hf, hne, hg, hp, hwb, hd, hpi]
    | true =>
      cases hbo : e.webBuildOk with
      | false => simp [runAutoDeploy, hl, hf, hne, hg, hp, hwb, hbo]
      | true => simp [runAutoDeploy, hl, hf, hne, hg, hp, hwb, hbo, hd, hpi]

/-- Witness for `c1_build_failure`: a concrete invocation whose dependency
reinstall fails. -/
theorem c1_build_failure_witness :
    (runAutoDeploy ⟨true, true, "r9", true, true, 0, ["pyproject.toml"],
        true, true, false⟩ ⟨"r8"⟩).exitCode = 1 ∧
    (runAutoDeploy ⟨true, true, "r9", true, true, 0, ["pyproject.toml"],
        true, true, false⟩ ⟨"r8"⟩).restarted = [] ∧
    (runAutoDeploy ⟨true, true, "r9", true, true, 0, ["pyproject.toml"],
        true, true, false⟩ ⟨"r8"⟩).final.localRev = "r9" :=
  c1_build_failure _ _ rfl rfl (by decide) (by decide) rfl
    (Or.inr ⟨by decide, rfl⟩)

/-- Claim C4: a Deploy Poller invocation that detects pending remote changes
while the training gate is active (database present, sqlite available, at
least one `running` row) logs a skip reason referencing the job count and
terminates successfully without advancing the local revision pointer and
without any build or restart action, so the pending change will be
re-detected on the next tick (the local revision still differs from the
remote). -/
theorem c4_training_gate (e : DeployEnv) (s : DeployState)
    (hl : e.lockFree = true) (hf : e.fetchOk = true)
    (hne : ¬ s.localRev = e.remoteRev)
    (hdb : e.dbExists = true) (hsq : e.sqliteOk = true)
    (hr : 0 < e.runningCount) :
    (runAutoDeploy e s).exitCode = 0 ∧
    skipDeployMsg e.runningCount ∈ (runAutoDeploy e s).logs ∧
    (runAutoDeploy e s).final.localRev = s.localRev ∧
    (runAutoDeploy e s).webRebuilt = false ∧
    (runAutoDeploy e s).depsReinstalled = false ∧
    (runAutoDeploy e s).restarted = [] ∧
    ¬ (runAutoDeploy e s).final.localRev = e.remoteRev := by
  have hrj : runningJobs e = e.runningCount := by
    simp [runningJobs, hdb, hsq]
  simp [runAutoDeploy, hl, hf, hne, hrj, hr, hne]

/-- Witness for `c4_training_gate`: one running training job gates a pending
deploy. -/
theorem c4_training_gate_witness :
    (runAutoDeploy ⟨true, true, "r2", true, true, 1, ["api/main.py"],
        true, true, true⟩ ⟨"r1"⟩).exitCode = 0 ∧
    skipDeployMsg 1 ∈ (runAutoDeploy ⟨true, true, "r2", true, true, 1,
        ["api/main.py"], true, true, true⟩ ⟨"r1"⟩).logs := by
  have h := c4_training_gate ⟨true, true, "r2", true, true, 1, ["api/main.py"],
    true, true, true⟩ ⟨"r1"⟩ rfl rfl (by decide) rfl rfl (by decide)
  exact ⟨h.1, h.2.1⟩

/-- Claim C6: a deploy invocation whose changed-path set touches only the
`api/` service-source path restarts exactly `wybe-api` with no asset rebuild
and no dependency reinstall; one touching only `frontend/` restarts exactly
`wybe-studio` likewise; one touching only the dependency manifest
`pyproject.toml` reinstalls dependencies and restarts no service directly. -/
theorem c6_classification (e : DeployEnv) (s : DeployState)
    (hl : e.lockFree = true) (hf : e.fetchOk = true)
    (hne : ¬ s.localRev = e.remoteRev) (hg : runningJobs e = 0)
    (hp : e.pullOk = true) (hnonempty : e.changed ≠ []) :
    ((∀ f ∈ e.changed, pathStarts apiPat f = true) →
      (runAutoDeploy e s).restarted = ["wybe-api"] ∧
      (runAutoDeploy e s).webRebuilt = false ∧
      (runAutoDeploy e s).depsReinstalled = false ∧
      (runAutoDeploy e s).exitCode = 0) ∧
    ((∀ f ∈ e.changed, pathStarts frontendPat f = true) →
      (runAutoDeploy e s).restarted = ["wybe-studio"] ∧
      (runAutoDeploy e s).webRebuilt = false ∧
      (runAutoDeploy e s).depsReinstalled = false ∧
      (runAutoDeploy e s).exitCode = 0) ∧
    ((∀ f ∈ e.changed, f = "pyproject.toml") → e.pipOk = true →
      (runAutoDeploy e s).restarted = [] ∧
      (runAutoDeploy e s).depsReinstalled = true ∧
      (runAutoDeploy e s).webRebuilt = false ∧
      (runAutoDeploy e s).exitCode = 0) := by
  obtain ⟨f0, hf0⟩ := List.exists_mem_of_ne_nil e.changed hnonempty
  refine ⟨?_, ?_, ?_⟩
  · intro hall
    have hapi : e.changed.any (pathStarts apiPat) = true := by
      simp only [List.any_eq_true]
      exact ⟨f0, hf0, hall f0 hf0⟩
    have hweb : e.changed.any (pathStarts webPat) = false := by
      simp only [List.any_eq_false]
      intro x hx
      simp [(starts_api_only x (hall x hx)).1]
    have hpy : e.changed.any (pathStarts pyprojectPat) = false := by
      simp only [List.any_eq_false]
      intro x hx
      simp [(starts_api_only x (hall x hx)).2.1]
    have hfe : e.changed.any (pathStarts frontendPat) = false := by
      simp only [List.any_eq_false]
      intro x hx
      simp [(starts_api_only x (hall x hx)).2.2]
    simp [runAutoDeploy, hl, hf, hne, hg, hp, hapi, hweb, hpy, hfe]
  · intro hall
    have hfe : e.changed.any (pathStarts frontendPat) = true := by
      simp only [List.any_eq_true]
      exact ⟨f0, hf0, hall f0 hf0⟩
    have hweb : e.changed.any (pathStarts webPat) = false := by
      simp only [List.any_eq_false]
      intro x hx
      simp [(starts_frontend_only x (hall x hx)).1]
    have hpy : e.changed.any (pathStarts pyprojectPat) = false := by
      simp only [List.any_eq_false]
      intro x hx
      simp [(starts_frontend_only x (hall x hx)).2.1]
    have hapi : e.changed.any (pathStarts apiPat) = false := by
      simp only [List.any_eq_false]
      intro x hx
      simp [(starts_frontend_only x (hall x hx)).2.2]
    simp [runAutoDeploy, hl, hf, hne, hg, hp, hfe, hweb, hpy, hapi]
  · intro hall hpk
    have hpy : e.changed.any (pathStarts pyprojectPat) = true := by
      simp only [List.any_eq_true]
      refine ⟨f0, hf0, ?_⟩
      rw [hall f0 hf0]
      decide
    have hweb : e.changed.any (pathStarts webPat) = false := by
      simp only [List.any_eq_false]
      intro x hx
      rw [hall x hx]
      decide
    have hapi : e.changed.any (pathStarts apiPat) = false := by
      simp only [List.any_eq_false]
      intro x hx
      rw [hall x hx]
      decide
    have hfe : e.changed.any (pathStarts frontendPat) = false := by
      simp only [List.any_eq_false]
      intro x hx
      rw [hall x hx]
      decide
    simp [runAutoDeploy, hl, hf, hne, hg, hp, hpy, hweb, hapi, hfe, hpk]

/-- Witness for `c6_classification`: a change set touching only `api/`. -/
theorem c6_classification_witness :
    (runAutoDeploy ⟨true, true, "r2", true, true, 0, ["api/routes.py"],
        true, true, true⟩ ⟨"r1"⟩).restarted = ["wybe-api"] ∧
    (runAutoDeploy ⟨true, true, "r2", true, true, 0, ["api/routes.py"],
        true, true, true⟩ ⟨"r1"⟩).webRebuilt = false := by
  have h := (c6_classification ⟨true, true, "r2", true, true, 0,
      ["api/routes.py"], true, true, true⟩ ⟨"r1"⟩ rfl rfl (by decide) rfl rfl
      (by decide)).1 (by intro f hf; simp at hf; rw [hf]; decide)
  exact ⟨h.1, h.2.1⟩

/-! ## Backup Manager (backup.sh)

The script runs under `set -uo pipefail` (no `-e`).  Steps in source
order: backup lock (`flock -n`, exit 0 on contention); zero-wait test of
the deploy lock (exit 0 when a deploy is in progress); existence check of
the database file (exit 0 when absent); staging of the database copy, the
redacted `.env` copy and the `pod-info.json` metadata; checkout of the
backup branch (the local branch if it exists, else a tracking branch of
the remote one, else an unborn orphan branch); `git add` of the three
files and `git diff --cached --quiet` against the branch tip — when the
staged content is byte-identical the commit and the push are both
skipped; otherwise `git commit` advances the local branch tip and
`git push --force` (failure only logs an error, the script continues);
finally checkout back to the original branch.  Every path exits 0. -/

structure PodInfo where
  timestamp : String
  hostname : String
  podId : String
  gitSha : String
  gpu : String
deriving Repr, DecidableEq

/-- The content of one commit on the backup branch: the database copy, the
redacted `.env` copy (absent when no `.env` was ever staged) and the pod
metadata. -/
structure Snap where
  db : String
  envFile : Option (List String)
  pod : PodInfo
deriving Repr, DecidableEq

structure BackupEnv where
  lockFree : Bool
  deployLockHeld : Bool
  dbExists : Bool
  dbContent : String
  envExists : Bool
  envContent : List String
  meta : PodInfo
  pushOk : Bool
deriving Repr, DecidableEq

structure BackupState where
  localTip : Option Snap
  remoteTip : Option Snap
  commitCount : Nat
  currentBranch : String
deriving Repr, DecidableEq

structure BackupResult where
  exitCode : Nat
  committed : Bool
  pushAttempted : Bool
  pushed : Bool
  errLogged : Bool
  st : BackupState
deriving Repr, DecidableEq

/-- The branch tip the staged content is compared against after the
checkout chain of backup.sh lines 76-84: the local backup branch if it
exists, else the remote one, else nothing (unborn orphan branch). -/
def tipAfterCheckout (s : BackupState) : Option Snap :=
  match s.localTip with
  | some t => some t
  | none => s.remoteTip

/-- The staged content (backup.sh lines 87-91): the current database copy,
the redacted `.env` (when `.env` is absent locally, `cp` fails under
`|| true` and the working-tree copy from the checked-out tip stays staged),
and fresh metadata. -/
def stagedSnap (e : BackupEnv) (tip : Option Snap) : Snap :=
  { db := e.dbContent
    envFile := if e.envExists then some (redactEnv e.envContent)
      else tip.bind Snap.envFile
    pod := e.meta }

def runBackup (e : BackupEnv) (s : BackupState) : BackupResult :=
  if !e.lockFree then ⟨0, false, false, false, false, s⟩
  else if e.deployLockHeld then ⟨0, false, false, false, false, s⟩
  else if !e.dbExists then ⟨0, false, false, false, false, s⟩
  else
    let tip := tipAfterCheckout s
    let snap := stagedSnap e tip
    if tip = some snap then
      ⟨0, false, false, false, false, { s with localTip := tip }⟩
    else
      ⟨0, true, true, e.pushOk, !e.pushOk,
        { s with localTip := some snap,
                 remoteTip := if e.pushOk then some snap else s.remoteTip,
                 commitCount := s.commitCount + 1 }⟩

/-- Restaging on top of a freshly committed snapshot stages the same
content again. -/
theorem stagedSnap_fixed (e : BackupEnv) (t : Option Snap) :
    stagedSnap e (some (stagedSnap e t)) = stagedSnap e t := by
  unfold stagedSnap
  cases he : e.envExists <;> simp [he, Option.bind]

theorem tipAfterCheckout_some (s : BackupState) (t : Snap)
    (h : s.localTip = some t) : tipAfterCheckout s = some t := by
  unfold tipAfterCheckout
  rw [h]

/-- Behaviour of a backup run once the three gates have passed. -/
theorem runBackup_gates (e : BackupEnv) (s : BackupState)
    (hl : e.lockFree = true) (hd : e.deployLockHeld = false)
    (hdb : e.dbExists = true) :
    runBackup e s =
      (if tipAfterCheckout s = some (stagedSnap e (tipAfterCheckout s)) then
        ⟨0, false, false, false, false, { s with localTip := tipAfterCheckout s }⟩
      else
        ⟨0, true, true, e.pushOk, !e.pushOk,
          { s with localTip := some (stagedSnap e (tipAfterCheckout s)),
                   remoteTip := if e.pushOk then
                       some (stagedSnap e (tipAfterCheckout s))
                     else s.remoteTip,
                   commitCount := s.commitCount + 1 }⟩) := by
  unfold runBackup
  simp [hl, hd, hdb]

theorem runBackup_skip (e : BackupEnv) (s : BackupState)
    (hl : e.lockFree = true) (hd : e.deployLockHeld = false)
    (hdb : e.dbExists = true)
    (htip : tipAfterCheckout s = some (stagedSnap e (tipAfterCheckout s))) :
    runBackup e s =
      ⟨0, false, false, false, false, { s with localTip := tipAfterCheckout s }⟩ := by
  rw [runBackup_gates e s hl hd hdb, if_pos htip]

theorem runBackup_commit (e : BackupEnv) (s : BackupState)
    (hl : e.lockFree = true) (hd : e.deployLockHeld = false)
    (hdb : e.dbExists = true)
    (htip : ¬ tipAfterCheckout s = some (stagedSnap e (tipAfterCheckout s))) :
    runBackup e s =
      ⟨0, true, true, e.pushOk, !e.pushOk,
        { s with localTip := some (stagedSnap e (tipAfterCheckout s)),
                 remoteTip := if e.pushOk then
                     some (stagedSnap e (tipAfterCheckout s))
                   else s.remoteTip,
                 commitCount := s.commitCount + 1 }⟩ := by
  rw [runBackup_gates e s hl hd hdb, if_neg htip]

/-- Claim C5: running the Backup Manager twice in succession with no change
to the database file, the configuration file, or the metadata between the
two runs (same environment record) produces exactly one new commit on the
backup branch, not two: the second run finds the staged content byte
identical to the branch tip and performs no commit and no push. -/
theorem c5_backup_idempotent (e : BackupEnv) (s : BackupState)
    (hl : e.lockFree = true) (hd : e.deployLockHeld = false)
    (hdb : e.dbExists = true)
    (hc : (runBackup e s).committed = true) :
    (runBackup e s).st.commitCount = s.commitCount + 1 ∧
    (runBackup e (runBackup e s).st).committed = false ∧
    (runBackup e (runBackup e s).st).pushAttempted = false ∧
    (runBackup e (runBackup e s).st).st.commitCount = s.commitCount + 1 := by
  by_cases htip : tipAfterCheckout s = some (stagedSnap e (tipAfterCheckout s))
  · exfalso
    revert hc
    rw [runBackup_skip e s hl hd hdb htip]
    simp
  · have r1 := runBackup_commit e s hl hd hdb htip
    have hLoc : (runBackup e s).st.localTip
        = some (stagedSnap e (tipAfterCheckout s)) := by
      rw [r1]
    have htipS1 : tipAfterCheckout (runBackup e s).st
        = some (stagedSnap e (tipAfterCheckout s)) :=
      tipAfterCheckout_some _ _ hLoc
    have hcond : tipAfterCheckout (runBackup e s).st
        = some (stagedSnap e (tipAfterCheckout (runBackup e s).st)) := by
      rw [htipS1, stagedSnap_fixed]
    have r2 := runBackup_skip e (runBackup e s).st hl hd hdb hcond
    refine ⟨by rw [r1], by rw [r2], by rw [r2], ?_⟩
    rw [r2]
    show (runBackup e s).st.commitCount = s.commitCount + 1
    rw [r1]

/-- Witness for `c5_backup_idempotent`: a first backup from an empty branch
commits, an identical second run does not. -/
theorem c5_backup_idempotent_witness :
    (runBackup ⟨true, false, true, "dbv1", true, ["FOO=bar"],
        ⟨"t1", "h1", "p1", "sha1", "gpu1"⟩, true⟩
      (runBackup ⟨true, false, true, "dbv1", true, ["FOO=bar"],
          ⟨"t1", "h1", "p1", "sha1", "gpu1"⟩, true⟩
        ⟨none, none, 0, "main"⟩).st).committed = false :=
  (c5_backup_idempotent ⟨true, false, true, "dbv1", true, ["FOO=bar"],
      ⟨"t1", "h1", "p1", "sha1", "gpu1"⟩, true⟩
    ⟨none, none, 0, "main"⟩ rfl rfl rfl (by decide)).2.1

/-- Claim C2 (counterexample): a backup invocation whose force-push fails
reports the failure and exits 0 with the snapshot committed on the local
backup branch; but the next invocation, run with no intervening change to
the backed-up state (and a working push), finds the staged content byte
identical to the locally committed tip, so it attempts no push at all and
the remote still has no snapshot — the committed-but-unpushed snapshot does
not reach the remote. -/
theorem c2_counterexample :
    (runBackup ⟨true, false, true, "dbv1", true, ["ANTHROPIC_API_KEY=abc123"],
        ⟨"t1", "h1", "p1", "sha1", "gpu1"⟩, false⟩
      ⟨none, none, 0, "main"⟩).exitCode = 0 ∧
    (runBackup ⟨true, false, true, "dbv1", true, ["ANTHROPIC_API_KEY=abc123"],
        ⟨"t1", "h1", "p1", "sha1", "gpu1"⟩, false⟩
      ⟨none, none, 0, "main"⟩).committed = true ∧
    (runBackup ⟨true, false, true, "dbv1", true, ["ANTHROPIC_API_KEY=abc123"],
        ⟨"t1", "h1", "p1", "sha1", "gpu1"⟩, false⟩
      ⟨none, none, 0, "main"⟩).errLogged = true ∧
    (runBackup ⟨true, false, true, "dbv1", true, ["ANTHROPIC_API_KEY=abc123"],
        ⟨"t1", "h1", "p1", "sha1", "gpu1"⟩, true⟩
      (runBackup ⟨true, false, true, "dbv1", true, ["ANTHROPIC_API_KEY=abc123"],
          ⟨"t1", "h1", "p1", "sha1", "gpu1"⟩, false⟩
        ⟨none, none, 0, "main"⟩).st).pushAttempted = false ∧
    (runBackup ⟨true, false, true, "dbv1", true, ["ANTHROPIC_API_KEY=abc123"],
        ⟨"t1", "h1", "p1", "sha1", "gpu1"⟩, true⟩
      (runBackup ⟨true, false, true, "dbv1", true, ["ANTHROPIC_API_KEY=abc123"],
          ⟨"t1", "h1", "p1", "sha1", "gpu1"⟩, false⟩
        ⟨none, none, 0, "main"⟩).st).st.remoteTip = none := by
  decide

/-- Claim C2 (amended): a push failure is reported (an error is logged) but
non-fatal — the invocation still exits 0 and the snapshot stays committed on
the local backup branch; however the next scheduled invocation, run with no
intervening change to the backed-up state, stages content byte-identical to
that local tip and therefore performs no commit and no push, whatever the
push outcome would be: the remote tip is left unchanged, and the
committed-but-unpushed snapshot reaches the remote only once the backed-up
state changes again. -/
theorem c2_push_failure (e : BackupEnv) (s : BackupState)
    (hl : e.lockFree = true) (hd : e.deployLockHeld = false)
    (hdb : e.dbExists = true) (hpush : e.pushOk = false)
    (hc : (runBackup e s).committed = true) :
    (runBackup e s).exitCode = 0 ∧
    (runBackup e s).errLogged = true ∧
    (runBackup e s).pushed = false ∧
    ∀ p : Bool,
      (runBackup { e with pushOk := p } (runBackup e s).st).pushAttempted
          = false ∧
      (runBackup { e with pushOk := p } (runBackup e s).st).st.remoteTip
          = (runBackup e s).st.remoteTip := by
  by_cases htip : tipAfterCheckout s = some (stagedSnap e (tipAfterCheckout s))
  · exfalso
    revert hc
    rw [runBackup_skip e s hl hd hdb htip]
    simp
  · have r1 := runBackup_commit e s hl hd hdb htip
    have hLoc : (runBackup e s).st.localTip
        = some (stagedSnap e (tipAfterCheckout s)) := by
      rw [r1]
    have htipS1 : tipAfterCheckout (runBackup e s).st
        = some (stagedSnap e (tipAfterCheckout s)) :=
      tipAfterCheckout_some _ _ hLoc
    refine ⟨by rw [r1], by rw [r1, hpush]; rfl, by rw [r1, hpush], ?_⟩
    intro p
    have hstg : ∀ t : Option Snap,
        stagedSnap { e with pushOk := p } t = stagedSnap e t := fun _ => rfl
    have hcond : tipAfterCheckout (runBackup e s).st
        = some (stagedSnap { e with pushOk := p }
            (tipAfterCheckout (runBackup e s).st)) := by
      rw [htipS1, hstg, stagedSnap_fixed]
    have r2 := runBackup_skip { e with pushOk := p } (runBackup e s).st
      hl hd hdb hcond
    exact ⟨by rw [r2], by rw [r2]⟩

/-- Witness for `c2_push_failure`: a concrete first backup with a failing
push. -/
theorem c2_push_failure_witness :
    (runBackup ⟨true, false, true, "dbv2", true, ["FOO=bar"],
        ⟨"t2", "h2", "p2", "sha2", "gpu2"⟩, false⟩
      ⟨none, none, 0, "main"⟩).exitCode = 0 ∧
    (runBackup ⟨true, false, true, "dbv2", true, ["FOO=bar"],
        ⟨"t2", "h2", "p2", "sha2", "gpu2"⟩, false⟩
      ⟨none, none, 0, "main"⟩).errLogged = true := by
  have h := c2_push_failure ⟨true, false, true, "dbv2", true, ["FOO=bar"],
    ⟨"t2", "h2", "p2", "sha2", "gpu2"⟩, false⟩ ⟨none, none, 0, "main"⟩
    rfl rfl rfl rfl (by decide)
  exact ⟨h.1, h.2.1⟩

/-! ## Health Monitor (health_monitor.sh)

Runs under `set -uo pipefail` (no `-e`; errors handled per check).  For
each of the three registered services: a first `curl` probe; on failure
one `supervisorctl restart` request (its own failure suppressed), a fixed
sleep, and exactly one re-probe, recording `recovered` or `failing`.  The
loop never aborts early, and afterwards one consolidated JSON snapshot is
written with an entry for every registered service plus the GPU and disk
facts gathered the same cycle. -/

def healthRegistry : List (String × String) :=
  [("wybe-api", "http://localhost:8000/api/health"),
   ("wybe-web", "http://localhost:3000"),
   ("wybe-studio", "http://localhost:7860")]

structure HealthEnv where
  probeOnce : String → Bool
  probeAgain : String → Bool
  gpuOk : Bool
  diskPct : Int
  timestamp : String

/-- Status recorded for one service (health_monitor.sh lines 32-49). -/
def svcStatus (e : HealthEnv) (svc : String) : String :=
  if e.probeOnce svc then "ok"
  else if e.probeAgain svc then "recovered"
  else "failing"

/-- Number of supervised-restart requests issued for one service in one
cycle. -/
def svcRestartRequests (e : HealthEnv) (svc : String) : Nat :=
  if e.probeOnce svc then 0 else 1

/-- Number of re-probes issued for one service in one cycle. -/
def svcReprobes (e : HealthEnv) (svc : String) : Nat :=
  if e.probeOnce svc then 0 else 1

structure HealthSnapshot where
  timestamp : String
  services : List (String × String)
  diskPct : Int
  gpuOk : Bool
deriving Repr, DecidableEq

/-- One monitor cycle: probe every registered service and write the
consolidated status snapshot (health_monitor.sh lines 61-72). -/
def runHealthMonitor (e : HealthEnv) : HealthSnapshot :=
  { timestamp := e.timestamp
    services := healthRegistry.map (fun p => (p.1, svcStatus e p.1))
    diskPct := e.diskPct
    gpuOk := e.gpuOk }

/-- Claim C7: in every Health Monitor cycle, a registered service whose
first probe succeeds is recorded `ok` with no restart request; one whose
first probe fails receives exactly one restart request and one re-probe and
is recorded `recovered` when the re-probe succeeds and `failing` when it
fails; a failing service does not prevent the remaining services from being
probed (the snapshot has an entry for every registered service); and the
cycle writes one consolidated snapshot carrying the GPU-availability and
disk-usage facts. -/
theorem c7_health_monitor (e : HealthEnv) (svc url : String)
    (hmem : (svc, url) ∈ healthRegistry) :
    (e.probeOnce svc = true →
      svcStatus e svc = "ok" ∧ svcRestartRequests e svc = 0) ∧
    (e.probeOnce svc = false →
      svcRestartRequests e svc = 1 ∧ svcReprobes e svc = 1 ∧
      (e.probeAgain svc = true → svcStatus e svc = "recovered") ∧
      (e.probeAgain svc = false → svcStatus e svc = "failing")) ∧
    (svc, svcStatus e svc) ∈ (runHealthMonitor e).services ∧
    (runHealthMonitor e).services.length = healthRegistry.length ∧
    (runHealthMonitor e).gpuOk = e.gpuOk ∧
    (runHealthMonitor e).diskPct = e.diskPct := by
  refine ⟨?_, ?_, ?_, ?_, rfl, rfl⟩
  · intro h1
    simp [svcStatus, svcRestartRequests, h1]
  · intro h1
    refine ⟨by simp [svcRestartRequests, h1], by simp [svcReprobes, h1],
      ?_, ?_⟩ <;> intro h2 <;> simp [svcStatus, h1, h2]
  · exact List.mem_map_of_mem (fun p => (p.1, svcStatus e p.1)) hmem
  · simp [runHealthMonitor]

/-- Witness for `c7_health_monitor`: `wybe-api` fails its first probe and
recovers on the re-probe. -/
theorem c7_health_monitor_witness :
    svcStatus ⟨fun _ => false, fun _ => true, true, 42, "t"⟩ "wybe-api"
        = "recovered" ∧
    ("wybe-api", svcStatus ⟨fun _ => false, fun _ => true, true, 42, "t"⟩
        "wybe-api")
      ∈ (runHealthMonitor
          ⟨fun _ => false, fun _ => true, true, 42, "t"⟩).services := by
  have h := c7_health_monitor ⟨fun _ => false, fun _ => true, true, 42, "t"⟩
    "wybe-api" "http://localhost:8000/api/health" (by simp [healthRegistry])
  exact ⟨(h.2.1 rfl).2.2.1 rfl, h.2.2.1⟩

/-! ## Restore Manager (restore_backup.sh)

Runs under `set -euo pipefail`.  `git fetch` of the backup branch (exit 1
when absent); read-only extraction of `studio.db` and `env` from the
branch tip with `git show` (a missing path makes the bare `git show`
command fail and `set -e` aborts the script); for each extracted file
that is non-empty (`[ -s ... ]`), any existing local copy is first copied
to a `.pre-restore` sibling and then overwritten with the extracted
content.  No `git checkout` occurs: the working branch is untouched. -/

structure BackupFiles where
  db : Option String
  envFile : Option String
deriving Repr, DecidableEq

structure RestoreState where
  db : Option String
  dbPre : Option String
  envFile : Option String
  envPre : Option String
  branch : String
deriving Repr, DecidableEq

def runRestore (tip : Option BackupFiles) (s : RestoreState) :
    RestoreState × Nat :=
  match tip with
  | none => (s, 1)
  | some t =>
    match t.db with
    | none => (s, 1)
    | some dbc =>
      let s1 := if dbc ≠ "" then
          { s with dbPre := if s.db.isSome then s.db else s.dbPre,
                   db := some dbc }
        else s
      match t.envFile with
      | none => (s1, 1)
      | some ec =>
        let s2 := if ec ≠ "" then
            { s1 with
              envPre := (if s1.envFile.isSome then s1.envFile else s1.envPre),
              envFile := some ec }
          else s1
        (s2, 0)

/-- Claim C8: when the external store has a backup branch tip containing a
non-empty database file and configuration file, a Restore Manager
invocation on a node that already has local copies preserves each prior
copy as a `.pre-restore` sibling, overwrites the local file with exactly
the content of the latest backup snapshot (a pure overwrite, never a
merge), succeeds, and never switches the local working branch. -/
theorem c8_restore (t : BackupFiles) (s : RestoreState) (dbc ec : String)
    (hdb : t.db = some dbc) (hdbne : dbc ≠ "")
    (henv : t.envFile = some ec) (hecne : ec ≠ "")
    (dbOld envOld : String)
    (hold : s.db = some dbOld) (holdEnv : s.envFile = some envOld) :
    (runRestore (some t) s).2 = 0 ∧
    (runRestore (some t) s).1.db = some dbc ∧
    (runRestore (some t) s).1.dbPre = some dbOld ∧
    (runRestore (some t) s).1.envFile = some ec ∧
    (runRestore (some t) s).1.envPre = some envOld ∧
    (runRestore (some t) s).1.branch = s.branch := by
  simp [runRestore, hdb, henv, hdbne, hecne, hold, holdEnv]

/-- Witness for `c8_restore`: restoring onto a node that already has a
database and configuration file. -/
theorem c8_restore_witness :
    (runRestore (some ⟨some "dbNew", some "envNew"⟩)
      ⟨some "dbOld", none, some "envOld", none, "main"⟩).1.db = some "dbNew" ∧
    (runRestore (some ⟨some "dbNew", some "envNew"⟩)
      ⟨some "dbOld", none, some "envOld", none, "main"⟩).1.dbPre
        = some "dbOld" := by
  have h := c8_restore ⟨some "dbNew", some "envNew"⟩
    ⟨some "dbOld", none, some "envOld", none, "main"⟩ "dbNew" "envNew"
    rfl (by decide) rfl (by decide) "dbOld" "envOld" rfl rfl
  exact ⟨h.2.1, h.2.2.1⟩

/-! ## Volume Migrator (setup_volume.sh)

Runs under `set -euo pipefail`.  Step 1 exits 0 when no volume is
attached.  Step 3 migrates `~/.wybe_studio`: only when it is a real
directory and not yet a symlink, the script stops all supervised services
(when `supervisorctl` is available and `supervisord` runs), `rsync`s the
data to the volume, moves the original aside as a `.bak` sibling,
creates the symlink and only then restarts the services; any failing step
aborts the whole script via `set -e`.  A path that is already a symlink is
skipped entirely.  Step 4 does the same for `checkpoints/` without the
service stop.  Either `ln -s` in the no-existing-data branches can also
fail and abort. -/

structure VolEnv where
  attached : Bool
  supervisorAvail : Bool
  supervisordRunning : Bool
  rsyncStudioOk : Bool
  mvStudioOk : Bool
  lnStudioOk : Bool
  rsyncCkptOk : Bool
  mvCkptOk : Bool
  lnCkptOk : Bool
deriving Repr, DecidableEq

structure VolState where
  studioDir : Bool
  studioLink : Bool
  studioBak : Bool
  ckptDir : Bool
  ckptLink : Bool
  ckptBak : Bool
  servicesRunning : Bool
deriving Repr, DecidableEq

structure MigOut where
  st : VolState
  copies : Nat
  moved : Bool
  stopCalled : Bool
  startCalled : Bool
  failed : Bool
deriving Repr, DecidableEq

/-- Step 3 of setup_volume.sh: the `~/.wybe_studio` migration. -/
def migrateStudio (e : VolEnv) (s : VolState) : MigOut :=
  if s.studioDir && !s.studioLink then
    let stop := e.supervisorAvail && e.supervisordRunning
    let s1 := if stop then { s with servicesRunning := false } else s
    if !e.rsyncStudioOk then ⟨s1, 0, false, stop, false, true⟩
    else if !e.mvStudioOk then ⟨s1, 1, false, stop, false, true⟩
    else
      let s2 := { s1 with studioDir := false, studioBak := true }
      if !e.lnStudioOk then ⟨s2, 1, true, stop, false, true⟩
      else
        let s3 := { s2 with studioLink := true }
        if e.supervisorAvail && e.supervisordRunning then
          ⟨{ s3 with servicesRunning := true }, 1, true, stop, true, false⟩
        else ⟨s3, 1, true, stop, false, false⟩
  else if s.studioLink then ⟨s, 0, false, false, false, false⟩
  else
    if !e.lnStudioOk then ⟨s, 0, false, false, false, true⟩
    else ⟨{ s with studioLink := true }, 0, false, false, false, false⟩

/-- Step 4 of setup_volume.sh: the `checkpoints/` migration. -/
def migrateCkpt (e : VolEnv) (s : VolState) : MigOut :=
  if s.ckptDir && !s.ckptLink then
    if !e.rsyncCkptOk then ⟨s, 0, false, false, false, true⟩
    else if !e.mvCkptOk then ⟨s, 1, false, false, false, true⟩
    else
      let s2 := { s with ckptDir := false, ckptBak := true }
      if !e.lnCkptOk then ⟨s2, 1, true, false, false, true⟩
      else ⟨{ s2 with ckptLink := true }, 1, true, false, false, false⟩
  else if s.ckptLink then ⟨s, 0, false, false, false, false⟩
  else
    if !e.lnCkptOk then ⟨s, 0, false, false, false, true⟩
    else ⟨{ s with ckptLink := true }, 0, false, false, false, false⟩

structure SetupOut where
  exitCode : Nat
  st : VolState
  studioCopies : Nat
  ckptCopies : Nat
  studioMoved : Bool
  ckptMoved : Bool
  stopCalled : Bool
  startCalled : Bool
deriving Repr, DecidableEq

def runSetupVolume (e : VolEnv) (s : VolState) : SetupOut :=
  if !e.attached then ⟨0, s, 0, 0, false, false, false, false⟩
  else
    let m1 := migrateStudio e s
    if m1.failed then
      ⟨1, m1.st, m1.copies, 0, m1.moved, false, m1.stopCalled, m1.startCalled⟩
    else
      let m2 := migrateCkpt e m1.st
      if m2.failed then
        ⟨1, m2.st, m1.copies, m2.copies, m1.moved, m2.moved,
          m1.stopCalled, m1.startCalled⟩
      else
        ⟨0, m2.st, m1.copies, m2.copies, m1.moved, m2.moved,
          m1.stopCalled, m1.startCalled⟩

/-- Claim C9: volume migration is idempotent.  When both logical paths are
already redirects (symbolic links), an invocation performs no copy, moves
nothing aside, exits successfully, and leaves the state — in particular
both redirects — unchanged; so does a second consecutive invocation on the
resulting state. -/
theorem c9_idempotent (e : VolEnv) (s : VolState)
    (hs : s.studioLink = true) (hc : s.ckptLink = true) :
    runSetupVolume e s = ⟨0, s, 0, 0, false, false, false, false⟩ ∧
    runSetupVolume e (runSetupVolume e s).st
      = ⟨0, s, 0, 0, false, false, false, false⟩ ∧
    (runSetupVolume e s).st.studioLink = true ∧
    (runSetupVolume e s).st.ckptLink = true := by
  have h1 : migrateStudio e s = ⟨s, 0, false, false, false, false⟩ := by
    simp [migrateStudio, hs]
  have h2 : migrateCkpt e s = ⟨s, 0, false, false, false, false⟩ := by
    simp [migrateCkpt, hc]
  have hrun : runSetupVolume e s = ⟨0, s, 0, 0, false, false, false, false⟩ := by
    cases ha : e.attached <;> simp [runSetupVolume, ha, h1, h2]
  refine ⟨hrun, ?_, by rw [hrun]; exact hs, by rw [hrun]; exact hc⟩
  rw [hrun]
  exact hrun

/-- Witness for `c9_idempotent`: a fully migrated state with the volume
attached. -/
theorem c9_idempotent_witness :
    runSetupVolume ⟨true, true, true, true, true, true, true, true, true⟩
      ⟨false, true, true, false, true, true, true⟩
    = ⟨0, ⟨false, true, true, false, true, true, true⟩,
        0, 0, false, false, false, false⟩ :=
  (c9_idempotent ⟨true, true, true, true, true, true, true, true, true⟩
    ⟨false, true, true, false, true, true, true⟩ rfl rfl).1

/-- Claim C10: when the migrator has stopped the supervised services for
the database-directory migration and the copy, the move-aside or the
redirect creation then fails, the script aborts with a non-zero exit, the
service-restart step is never reached, and the services are left stopped. -/
theorem c10_failure_leaves_stopped (e : VolEnv) (s : VolState)
    (ha : e.attached = true) (hd : s.studioDir = true)
    (hl : s.studioLink = false)
    (hsa : e.supervisorAvail = true) (hsr : e.supervisordRunning = true)
    (hfail : e.rsyncStudioOk = false ∨ e.mvStudioOk = false ∨
      e.lnStudioOk = false) :
    (runSetupVolume e s).exitCode = 1 ∧
    (runSetupVolume e s).stopCalled = true ∧
    (runSetupVolume e s).startCalled = false ∧
    (runSetupVolume e s).st.servicesRunning = false := by
  rcases hfail with h | h | h
  · simp [runSetupVolume, migrateStudio, ha, hd, hl, hsa, hsr, h]
  · cases hr : e.rsyncStudioOk <;>
      simp [runSetupVolume, migrateStudio, ha, hd, hl, hsa, hsr, h, hr]
  · cases hr : e.rsyncStudioOk <;> cases hm : e.mvStudioOk <;>
      simp [runSetupVolume, migrateStudio, ha, hd, hl, hsa, hsr, h, hr, hm]

/-- Witness for `c10_failure_leaves_stopped`: the redirect creation fails
after a successful copy and move-aside. -/
theorem c10_failure_leaves_stopped_witness :
    (runSetupVolume ⟨true, true, true, true, true, false, true, true, true⟩
      ⟨true, false, false, true, false, false, true⟩).exitCode = 1 ∧
    (runSetupVolume ⟨true, true, true, true, true, false, true, true, true⟩
      ⟨true, false, false, true, false, false, true⟩).startCalled = false := by
  have h := c10_failure_leaves_stopped
    ⟨true, true, true, true, true, false, true, true, true⟩
    ⟨true, false, false, true, false, false, true⟩
    rfl rfl rfl rfl rfl (Or.inr (Or.inr rfl))
  exact ⟨h.1, h.2.2.1⟩

end IntelligenceLayer
